import Mathlib

/-!
Shallow embedding of the Chatbot.AI backend (src/backend/src/server.ts,
with the generateGeminiReply variant of src/unnamed/part_000): the
conversation/message store, the two HTTP handlers and the reply
generator, as executable Lean definitions, followed by theorems about
them.
-/

namespace Chatbot

/-- A JavaScript value as it may appear in a parsed JSON request body or
in the query object.  `varr` and `vobj` stand for arbitrary array and
object values; their contents are never inspected by the handlers. -/
inductive JSValue where
  | vstr (s : String)
  | vnum (n : Int)
  | vbool (b : Bool)
  | vnull
  | vundefined
  | varr
  | vobj
deriving DecidableEq, Repr

/-- JavaScript truthiness of a value, so that the source's `!v` is
`!truthy v`.  (NaN, which is also falsy, has no counterpart in this
integer model; no claim depends on it.) -/
def truthy : JSValue → Bool
  | .vstr s => !(s == "")
  | .vnum n => !(n == 0)
  | .vbool b => b
  | .vnull => false
  | .vundefined => false
  | .varr => true
  | .vobj => true

/-- The source's `typeof v === "string"`. -/
def isStr : JSValue → Bool
  | .vstr _ => true
  | _ => false

/-- A row of the Message table: owning conversation, sender role
("user" or "ai"), text content, and creation timestamp.  Timestamps are
modelled as a Nat clock; `createdAt` defaults are strictly increasing
over the successive writes of a request. -/
structure Message where
  conversationId : String
  sender : String
  text : String
  timestamp : Nat
deriving DecidableEq, Repr

/-- The SQLite store: the Conversation table (ids only — a Conversation
row carries no other attribute the handlers read) and the Message table
in insertion order, together with the clock stamping new messages. -/
structure Store where
  conversations : List String
  messages : List Message
  nextTime : Nat
deriving DecidableEq, Repr

/-- The comparison of `orderBy timestamp asc`. -/
def tsLE (a b : Message) : Prop := a.timestamp ≤ b.timestamp

instance : DecidableRel tsLE := fun a b => Nat.decLe a.timestamp b.timestamp

instance : IsTotal Message tsLE := ⟨fun a b => Nat.le_total a.timestamp b.timestamp⟩

instance : IsTrans Message tsLE := ⟨fun _ _ _ h h2 => Nat.le_trans h h2⟩

/-- The rows of the Message table belonging to one conversation (the
`where` clause of `findMany`). -/
def msgsOf (st : Store) (cid : String) : List Message :=
  st.messages.filter (fun m => m.conversationId == cid)

/-- `prisma.message.findMany` with `where conversationId`,
`orderBy timestamp asc` and `take limit`: sort the matching rows
ascending and take `limit` rows from the start of the ordered result
set (that is how Prisma's `take` counts with an ascending order). -/
def listRecentMessages (st : Store) (cid : String) (limit : Nat) : List Message :=
  ((msgsOf st cid).insertionSort tsLE).take limit

/-- The same `findMany` without `take`: the full ascending list, as used
by GET /chat/history. -/
def listAllMessages (st : Store) (cid : String) : List Message :=
  (msgsOf st cid).insertionSort tsLE

/-- `prisma.conversation.create` with empty data and a server-generated
fresh identifier. -/
def createConversation (st : Store) (freshId : String) : Store :=
  { st with conversations := st.conversations ++ [freshId] }

/-- `prisma.message.create`, stamping the new row with the current
clock. -/
def appendMessage (st : Store) (cid sender text : String) : Store :=
  { st with
      messages := st.messages ++ [⟨cid, sender, text, st.nextTime⟩],
      nextTime := st.nextTime + 1 }

/-- The outcome of one `genAI.models.generateContent` call: the promise
may reject (`throws`), or resolve with `result.text` absent or
present. -/
inductive ApiOutcome where
  | throws
  | returns (text : Option String)
deriving DecidableEq, Repr

/-- The request submitted to the external generative API: the model
identifier and the text of the single user-role part. -/
structure GenRequest where
  model : String
  promptText : String
deriving DecidableEq, Repr

/-- The static FAQ template literal of `generateSupportReply`
(src/backend/src/server.ts).  The file's literal bytes are reproduced
exactly; its en dashes are the double-encoded sequence
U+00E2 U+20AC U+201C. -/
def faq : String :=
  "\nStore Information:\n\nBusiness:\n- We are an online e-commerce store.\n- This chat is for customer support only.\n\nShipping:\n- We ship worldwide, including the USA.\n- Delivery time: 5â€“10 business days.\n- Tracking details are shared after shipment.\n\nReturns & Refunds:\n- 30-day return policy.\n- Items must be unused and in original packaging.\n- Refunds are processed within 5â€“7 business days after approval.\n\nOrders:\n- Orders can be canceled within 24 hours of placement.\n- Orders cannot be canceled once shipped.\n\nSupport:\n- Available Mondayâ€“Friday, 9 AMâ€“6 PM.\n- Contact via chat or email.\n\nRules:\n- Only answer store-related questions.\n- Do not guess or invent information.\n- If a question is unrelated, politely refuse.\n"

/-- One line of the conversation rendering:
`(m.sender === "user" ? "Customer" : "Support") + ": " + m.text`. -/
def renderEntry (m : Message) : String :=
  (if m.sender == "user" then "Customer" else "Support") ++ ": " ++ m.text

/-- `history.map(...).join("\n")` in `generateSupportReply`. -/
def conversationTextOf (history : List Message) : String :=
  String.intercalate "\n" (history.map renderEntry)

/-- The instruction preamble of the prompt template literal, up to the
interpolation of `faq`. -/
def promptPreamble : String :=
  "\nYou are a customer support agent for an online store.\nAnswer ONLY using the information below.\nDo NOT act as a general AI assistant.\nKeep responses short, polite, and professional.\n\n"

/-- The template text between the `faq` interpolation and the
conversation rendering. -/
def conversationHeader : String := "\n\nConversation:\n"

/-- The full prompt `generateSupportReply` assembles. -/
def promptOf (history : List Message) : String :=
  promptPreamble ++ faq ++ conversationHeader ++ conversationTextOf history ++ "\n"

/-- The `generateContent` request `generateSupportReply` submits: the
fixed model identifier and the assembled prompt as the single
user-role part. -/
def supportRequestOf (history : List Message) : GenRequest :=
  { model := "gemini-2.5-flash", promptText := promptOf history }

/-- The fallback of `result.text ?? ...` in `generateSupportReply`
(the file's literal bytes: the apostrophe is the double-encoded
sequence U+00E2 U+20AC U+2122). -/
def fallbackNoText : String := "Sorry, I donâ€™t have that information."

/-- The fallback returned by the catch branch of
`generateSupportReply`. -/
def fallbackOnError : String := "Sorry, something went wrong. Please try again."

/-- `generateSupportReply` of src/backend/src/server.ts: assemble the
prompt, call the external API (modelled as an oracle on the submitted
request), return `result.text` when present, `fallbackNoText` when the
call succeeds without text, and `fallbackOnError` when the call throws
(the surrounding try/catch).  Total by construction: every branch
produces a String, so no exception can reach the caller. -/
def generateSupportReply (api : GenRequest → ApiOutcome) (history : List Message) : String :=
  match api (supportRequestOf history) with
  | .throws => fallbackOnError
  | .returns none => fallbackNoText
  | .returns (some t) => t

/-- The static FAQ of the `generateGeminiReply` variant
(src/unnamed/part_000); that file is cleanly encoded, with real em and
en dashes. -/
def faqGemini : String :=
  "\nProduct FAQ — AI Productivity Assistant\n\nAbout the Product:\n- An AI-powered assistant for developers and students.\n- Helps with coding, studying, planning, and idea generation.\n- Works entirely online via web browser.\n\nKey Features:\n- Conversational AI with session memory.\n- Code explanation, debugging, and optimization.\n- Converts vague ideas into structured plans.\n- Supports long technical explanations.\n- Fast responses powered by Gemini AI.\n\nWho Should Use This:\n- Developers writing or learning code.\n- Students preparing notes or understanding concepts.\n- Startup founders brainstorming ideas.\n- Professionals organizing tasks and workflows.\n\nPricing:\n- Free plan with limited daily messages.\n- Pro plan includes unlimited chats and priority speed.\n- Monthly and yearly billing options available.\n\nPrivacy & Data:\n- Chats are securely stored per session.\n- No data is sold or shared.\n- Users can request deletion of chat history.\n- Conversations are not used to train public models.\n\nTechnical Info:\n- Requires internet connection.\n- Best used on Chrome, Firefox, or Edge.\n- Markdown supported in replies.\n\nSupport:\n- Monday–Friday, 9am–6pm IST.\n- Email and in-app support available.\n- Typical response time under 24 hours.\n\nRefund Policy:\n- 7-day refund window for Pro users.\n- Refunds subject to fair usage.\n"

/-- One line of the variant's conversation rendering:
`(m.sender === "user" ? "User" : "Agent") + ": " + m.text`. -/
def renderEntryGemini (m : Message) : String :=
  (if m.sender == "user" then "User" else "Agent") ++ ": " ++ m.text

/-- The variant's instruction preamble, up to the `faq`
interpolation. -/
def promptPreambleGemini : String :=
  "\nYou are a knowledgeable support agent for an AI productivity product.\nProactively explain features, benefits, and best use cases.\nIf the user seems unsure, suggest how the product can help them.\nKeep responses friendly, concise, and clear.\n\n"

/-- The full prompt `generateGeminiReply` assembles. -/
def promptGeminiOf (history : List Message) : String :=
  promptPreambleGemini ++ faqGemini ++ conversationHeader ++
    String.intercalate "\n" (history.map renderEntryGemini) ++ "\n"

/-- The `generateContent` request `generateGeminiReply` submits (same
fixed model identifier). -/
def geminiRequestOf (history : List Message) : GenRequest :=
  { model := "gemini-2.5-flash", promptText := promptGeminiOf history }

/-- The `result.text ?? ...` fallback of `generateGeminiReply`. -/
def fallbackGeminiNoText : String := "Sorry, I couldn\u0027t generate a response."

/-- The catch-branch fallback of `generateGeminiReply`. -/
def fallbackGeminiOnError : String := "Sorry, there was an issue with the AI response."

/-- `generateGeminiReply` of src/unnamed/part_000: same structure as
`generateSupportReply`, with the variant's FAQ, labels and fallback
strings. -/
def generateGeminiReply (api : GenRequest → ApiOutcome) (history : List Message) : String :=
  match api (geminiRequestOf history) with
  | .throws => fallbackGeminiOnError
  | .returns none => fallbackGeminiNoText
  | .returns (some t) => t

/-- The response of POST /chat/message, abstracted to the cases the
handler can produce: 400, 404, 500 (the handler-boundary catch) and
200 with the reply text and session identifier. -/
inductive ChatResult where
  | badRequest (error : String)
  | notFound (error : String)
  | serverError (error : String)
  | ok (reply : String) (sessionId : String)
deriving DecidableEq, Repr

/-- Step 2 of the message handler: `let conversationId = sessionId`
followed by the create-or-validate block.  A falsy `sessionId` creates
a fresh Conversation; a truthy string is looked up with `findUnique`
and answered 404 when absent; a truthy non-string value makes the
Prisma call throw a validation error, which the handler's try/catch
turns into the generic 500. -/
def resolveConversation (st : Store) (sessionId : JSValue) (freshId : String) :
    Except ChatResult (String × Store) :=
  if truthy sessionId then
    match sessionId with
    | .vstr s =>
      if st.conversations.contains s then .ok (s, st)
      else .error (.notFound "Conversation not found.")
    | _ => .error (.serverError "Internal server error")
  else
    .ok (freshId, createConversation st freshId)

/-- `!s.trim()`: the trimmed string is empty exactly when every
character of `s` is whitespace (in particular when `s` is empty, the
case the source's leading `!message` already catches). -/
def isBlank (s : String) : Bool :=
  s.data.all fun c => c.isWhitespace

/-- The POST /chat/message handler.  `message` and `sessionId` are the
request-body fields, `freshId` the identifier the store would mint for
a newly created Conversation, `api` the external-call oracle.  Returns
the response together with the store after the request.  The source's
validation `!message || typeof message !== "string" || !message.trim()`
collapses, for a string `msg`, to `isBlank msg` (an empty string is
falsy and also trims to empty), and rejects every non-string value. -/
def postChatMessage (st : Store) (message sessionId : JSValue) (freshId : String)
    (api : GenRequest → ApiOutcome) : ChatResult × Store :=
  match message with
  | .vstr msg =>
    if isBlank msg then
      (.badRequest "Message cannot be empty.", st)
    else if 1000 < msg.length then
      (.badRequest "Message too long (max 1000 chars).", st)
    else
      match resolveConversation st sessionId freshId with
      | .error r => (r, st)
      | .ok (conversationId, st1) =>
        let st2 := appendMessage st1 conversationId "user" msg
        let history := listRecentMessages st2 conversationId 10
        let aiReply := generateSupportReply api history
        let st3 := appendMessage st2 conversationId "ai" aiReply
        (.ok aiReply conversationId, st3)
  | _ => (.badRequest "Message cannot be empty.", st)

/-- The response of GET /chat/history: 400 or 200 with the message
list. -/
inductive HistoryResult where
  | badRequest (error : String)
  | ok (messages : List Message)
deriving DecidableEq, Repr

/-- The GET /chat/history handler.  `sessionId` is the query parameter
(`none` when absent).  `!sessionId || typeof sessionId !== "string"`
rejects an absent, falsy (empty-string) or non-string value with 400;
otherwise the full ascending message list is returned, with no
existence check on the conversation. -/
def getChatHistory (st : Store) (sessionId : Option JSValue) : HistoryResult :=
  match sessionId with
  | none => .badRequest "sessionId is required."
  | some v =>
    if truthy v then
      match v with
      | .vstr s => .ok (listAllMessages st s)
      | _ => .badRequest "sessionId is required."
    else
      .badRequest "sessionId is required."

/-- Fixture: the i-th message of conversation "c1", timestamp i. -/
def msgAt (i : Nat) : Message :=
  { conversationId := "c1"
    sender := if i % 2 == 0 then "user" else "ai"
    text := "m" ++ toString i
    timestamp := i }

/-- Fixture store: conversation "c1" already holds ten messages with
timestamps 0..9. -/
def st10 : Store :=
  { conversations := ["c1"], messages := (List.range 10).map msgAt, nextTime := 10 }

/-- Fixture: the empty store. -/
def emptyStore : Store :=
  { conversations := [], messages := [], nextTime := 0 }

/-- Fixture oracle: the external call always throws. -/
def apiThrows : GenRequest → ApiOutcome := fun _ => .throws

/-- Fixture oracle: the external call echoes the submitted prompt as the
generated text, exposing exactly what the model was shown. -/
def apiEcho : GenRequest → ApiOutcome := fun rq => .returns (some rq.promptText)

/-- Fixture: the user message the C1 scenario saves as the eleventh row
of "c1". -/
def savedMsg : Message :=
  { conversationId := "c1", sender := "user", text := "hello", timestamp := 10 }

/-- Fixture: `st10` right after the handler has saved `savedMsg`. -/
def st11 : Store := appendMessage st10 "c1" "user" "hello"

/-- Helper: the handler's run on a valid message with an existing,
truthy session identifier: the user message is appended, the limit-10
slice is loaded, the generator is invoked on it and its reply appended
with sender "ai". -/
theorem postChatMessage_existing_run (st : Store) (freshId : String)
    (api : GenRequest → ApiOutcome) (msg s : String)
    (hmsg : isBlank msg = false) (hlen : msg.length ≤ 1000) (hs : s ≠ "")
    (hmem : st.conversations.contains s = true) :
    postChatMessage st (.vstr msg) (.vstr s) freshId api
      = (ChatResult.ok
           (generateSupportReply api
             (listRecentMessages (appendMessage st s "user" msg) s 10)) s,
         appendMessage (appendMessage st s "user" msg) s "ai"
           (generateSupportReply api
             (listRecentMessages (appendMessage st s "user" msg) s 10))) := by
  have hlen' : ¬ (1000 < msg.length) := by omega
  have hmem' : s ∈ st.conversations := by simpa using hmem
  simp [postChatMessage, resolveConversation, truthy, hmsg, hlen', hs, hmem']

/-- Helper: the handler's run on a valid message with a falsy session
value: a fresh Conversation is created and then the same pipeline
runs on it. -/
theorem postChatMessage_fresh_run (st : Store) (freshId : String)
    (api : GenRequest → ApiOutcome) (msg : String) (v : JSValue)
    (hmsg : isBlank msg = false) (hlen : msg.length ≤ 1000)
    (hfalsy : truthy v = false) :
    postChatMessage st (.vstr msg) v freshId api
      = (ChatResult.ok
           (generateSupportReply api
             (listRecentMessages
               (appendMessage (createConversation st freshId) freshId "user" msg)
               freshId 10)) freshId,
         appendMessage
           (appendMessage (createConversation st freshId) freshId "user" msg)
           freshId "ai"
           (generateSupportReply api
             (listRecentMessages
               (appendMessage (createConversation st freshId) freshId "user" msg)
               freshId 10))) := by
  have hlen' : ¬ (1000 < msg.length) := by omega
  simp [postChatMessage, resolveConversation, hmsg, hlen', hfalsy]

set_option maxRecDepth 4000 in
/-- C1 (code-bug evidence): in conversation "c1" with ten stored
messages (timestamps 0..9), the handler saves the user message
(timestamp 10) and then loads `listRecentMessages` with limit 10 — the
slice returned is the ten OLDEST messages, timestamps 0..9: the
just-saved message is in the store but not in the slice, and with an
oracle echoing the submitted prompt the handler's reply shows the model
was given exactly the prompt built from that truncated slice.  The
`orderBy timestamp asc` with `take 10` keeps the first ten rows of the
ascending order, not the last ten, contrary to the claim (and to the
source's own comment FETCH LAST 10 MESSAGES). -/
theorem c1_history_slice_omits_just_saved_message :
    savedMsg ∈ st11.messages ∧
    (listRecentMessages st11 "c1" 10).map Message.timestamp
      = [0, 1, 2, 3, 4, 5, 6, 7, 8, 9] ∧
    savedMsg ∉ listRecentMessages st11 "c1" 10 ∧
    (postChatMessage st10 (.vstr "hello") (.vstr "c1") "f1" apiEcho).1
      = ChatResult.ok (promptOf (listRecentMessages st11 "c1" 10)) "c1" :=
  ⟨by decide, by decide, by decide, by decide⟩

/-- C2: a message that is the empty string or whitespace-only
(`isBlank`), or longer than 1000 characters, is answered 400 with the
corresponding specific error message, and the store is returned
unchanged — no Message and no Conversation row is created by the
request. -/
theorem c2_invalid_message_rejected_store_unchanged (st : Store) (sid : JSValue)
    (freshId : String) (api : GenRequest → ApiOutcome) (s : String)
    (h : isBlank s = true ∨ 1000 < s.length) :
    postChatMessage st (.vstr s) sid freshId api
      = (if isBlank s then ChatResult.badRequest "Message cannot be empty."
         else ChatResult.badRequest "Message too long (max 1000 chars).", st) := by
  cases hb : isBlank s
  · rcases h with h | h
    · rw [hb] at h; simp at h
    · simp [postChatMessage, hb, h]
  · simp [postChatMessage, hb]

/-- C2 witness: the whitespace-only message " " at the empty store. -/
theorem c2_invalid_message_rejected_store_unchanged_spot :
    postChatMessage emptyStore (.vstr " ") .vundefined "f1" apiThrows
      = (ChatResult.badRequest "Message cannot be empty.", emptyStore) := by
  have h := c2_invalid_message_rejected_store_unchanged emptyStore .vundefined "f1"
    apiThrows " " (Or.inl (by decide))
  exact h.trans (by decide)

/-- C3: a valid message posted with a supplied (truthy string) session
identifier that matches no Conversation is answered 404 and the store
is returned unchanged — no Message and no Conversation row is
created. -/
theorem c3_unknown_session_rejected_store_unchanged (st : Store) (freshId : String)
    (api : GenRequest → ApiOutcome) (msg s : String)
    (hmsg : isBlank msg = false) (hlen : msg.length ≤ 1000) (hs : s ≠ "")
    (habs : st.conversations.contains s = false) :
    postChatMessage st (.vstr msg) (.vstr s) freshId api
      = (ChatResult.notFound "Conversation not found.", st) := by
  have hlen' : ¬ (1000 < msg.length) := by omega
  have habs' : s ∉ st.conversations := by simpa using habs
  simp [postChatMessage, resolveConversation, truthy, hmsg, hlen', hs, habs']

/-- C3 witness: posting "hi" with unknown session "zz" on the fixture
store. -/
theorem c3_unknown_session_rejected_store_unchanged_spot :
    postChatMessage st10 (.vstr "hi") (.vstr "zz") "f1" apiThrows
      = (ChatResult.notFound "Conversation not found.", st10) :=
  c3_unknown_session_rejected_store_unchanged st10 "f1" apiThrows "hi" "zz"
    (by decide) (by decide) (by decide) (by decide)

/-- C4: the Reply Generator is a total function — for every history and
every outcome of the external call it returns a string: the
catch-branch fallback when the call throws, the no-text fallback when
the call succeeds without text (two distinct fixed strings), and the
model's text otherwise; and likewise for the `generateGeminiReply`
variant with its own two fallbacks.  No exception reaches the
caller. -/
theorem c4_reply_generator_never_propagates (api : GenRequest → ApiOutcome)
    (history : List Message) :
    (api (supportRequestOf history) = .throws →
      generateSupportReply api history = fallbackOnError) ∧
    (api (supportRequestOf history) = .returns none →
      generateSupportReply api history = fallbackNoText) ∧
    (∀ t, api (supportRequestOf history) = .returns (some t) →
      generateSupportReply api history = t) ∧
    (api (geminiRequestOf history) = .throws →
      generateGeminiReply api history = fallbackGeminiOnError) ∧
    (api (geminiRequestOf history) = .returns none →
      generateGeminiReply api history = fallbackGeminiNoText) ∧
    (∀ t, api (geminiRequestOf history) = .returns (some t) →
      generateGeminiReply api history = t) ∧
    fallbackOnError ≠ fallbackNoText ∧
    fallbackGeminiOnError ≠ fallbackGeminiNoText := by
  refine ⟨fun h => ?_, fun h => ?_, fun t h => ?_, fun h => ?_, fun h => ?_,
    fun t h => ?_, by decide, by decide⟩ <;>
  simp [generateSupportReply, generateGeminiReply, h]

/-- C4 witness: with an always-throwing oracle and the empty history,
both generators return their catch-branch fallback. -/
theorem c4_reply_generator_never_propagates_spot :
    generateSupportReply apiThrows [] = fallbackOnError ∧
    generateGeminiReply apiThrows [] = fallbackGeminiOnError :=
  ⟨(c4_reply_generator_never_propagates apiThrows []).1 rfl,
   (c4_reply_generator_never_propagates apiThrows []).2.2.2.1 rfl⟩

/-- C5 counterexample: the empty-string sessionId is present and is a
string, so the claim requires 200 for it; the code answers 400 (the
empty string is falsy, so `!sessionId` fires). -/
theorem c5_empty_sessionId_counterexample :
    getChatHistory emptyStore (some (.vstr "")) = .badRequest "sessionId is required." ∧
    getChatHistory emptyStore (some (.vstr "")) ≠ .ok ([] : List Message) :=
  ⟨by decide, by decide⟩

/-- C5 (amended): GET /chat/history answers 400 when the sessionId
query parameter is absent, not a string, or the empty string; for a
nonempty string it answers 200 with the full list of that
conversation's messages — sorted ascending by timestamp, a permutation
of all matching rows, with no truncation — and an identifier matching
no conversation yields 200 with the empty list rather than 404. -/
theorem c5_history_endpoint_behavior (st : Store) :
    getChatHistory st none = .badRequest "sessionId is required." ∧
    (∀ v : JSValue, isStr v = false →
      getChatHistory st (some v) = .badRequest "sessionId is required.") ∧
    getChatHistory st (some (.vstr "")) = .badRequest "sessionId is required." ∧
    (∀ s : String, s ≠ "" →
      getChatHistory st (some (.vstr s)) = .ok (listAllMessages st s) ∧
      List.Sorted tsLE (listAllMessages st s) ∧
      (listAllMessages st s).Perm (msgsOf st s) ∧
      (msgsOf st s = [] → getChatHistory st (some (.vstr s)) = .ok [])) := by
  refine ⟨rfl, fun v hv => ?_, rfl, fun s hs => ⟨?_, ?_, ?_, fun hnone => ?_⟩⟩
  · cases v <;> simp_all [isStr, getChatHistory]
  · simp [getChatHistory, truthy, hs]
  · exact List.sorted_insertionSort tsLE (msgsOf st s)
  · exact List.perm_insertionSort tsLE (msgsOf st s)
  · simp [getChatHistory, truthy, hs, listAllMessages, hnone]

/-- C5 witness: an unknown nonempty sessionId on the fixture store is
answered 200 with the empty list. -/
theorem c5_history_endpoint_behavior_spot :
    getChatHistory st10 (some (.vstr "zz")) = .ok [] :=
  ((c5_history_endpoint_behavior st10).2.2.2 "zz" (by decide)).2.2.2 (by decide)

/-- C6: a successful post reusing an existing session identifier
responds with exactly that identifier, and leaves the Conversation
table unchanged — resolving a session never creates or re-points a
conversation for a valid identifier. -/
theorem c6_existing_session_identifier_stable (st : Store) (freshId : String)
    (api : GenRequest → ApiOutcome) (msg s : String)
    (hmsg : isBlank msg = false) (hlen : msg.length ≤ 1000) (hs : s ≠ "")
    (hmem : st.conversations.contains s = true) :
    (∃ r, (postChatMessage st (.vstr msg) (.vstr s) freshId api).1
      = ChatResult.ok r s) ∧
    (postChatMessage st (.vstr msg) (.vstr s) freshId api).2.conversations
      = st.conversations := by
  rw [postChatMessage_existing_run st freshId api msg s hmsg hlen hs hmem]
  exact ⟨⟨_, rfl⟩, rfl⟩

/-- C6 witness: reusing "c1" on the fixture store echoes "c1". -/
theorem c6_existing_session_identifier_stable_spot :
    (∃ r, (postChatMessage st10 (.vstr "hi") (.vstr "c1") "f1" apiThrows).1
      = ChatResult.ok r "c1") ∧
    (postChatMessage st10 (.vstr "hi") (.vstr "c1") "f1" apiThrows).2.conversations
      = st10.conversations :=
  c6_existing_session_identifier_stable st10 "f1" apiThrows "hi" "c1"
    (by decide) (by decide) (by decide) (by decide)

/-- C7: when every external call throws, a valid post still succeeds:
the response is 200 with the fixed fallback reply, and both the user
message and the fallback reply (sender "ai") are persisted under the
resolved conversation — for a reused existing session and for a fresh
session alike. -/
theorem c7_model_throw_still_persists_and_succeeds (st : Store) (freshId : String)
    (api : GenRequest → ApiOutcome) (msg s : String)
    (hmsg : isBlank msg = false) (hlen : msg.length ≤ 1000) (hs : s ≠ "")
    (hmem : st.conversations.contains s = true)
    (hthrow : ∀ rq, api rq = ApiOutcome.throws) :
    postChatMessage st (.vstr msg) (.vstr s) freshId api
      = (ChatResult.ok fallbackOnError s,
         { st with
             messages := st.messages ++
               [{ conversationId := s, sender := "user", text := msg,
                  timestamp := st.nextTime },
                { conversationId := s, sender := "ai", text := fallbackOnError,
                  timestamp := st.nextTime + 1 }],
             nextTime := st.nextTime + 2 }) ∧
    postChatMessage st (.vstr msg) JSValue.vundefined freshId api
      = (ChatResult.ok fallbackOnError freshId,
         { conversations := st.conversations ++ [freshId],
           messages := st.messages ++
             [{ conversationId := freshId, sender := "user", text := msg,
                timestamp := st.nextTime },
              { conversationId := freshId, sender := "ai", text := fallbackOnError,
                timestamp := st.nextTime + 1 }],
           nextTime := st.nextTime + 2 }) := by
  constructor
  · rw [postChatMessage_existing_run st freshId api msg s hmsg hlen hs hmem]
    simp [generateSupportReply, hthrow, appendMessage, createConversation,
      Store.mk.injEq]
  · rw [postChatMessage_fresh_run st freshId api msg JSValue.vundefined hmsg hlen rfl]
    simp [generateSupportReply, hthrow, appendMessage, createConversation,
      Store.mk.injEq]

/-- C7 witness: posting "hi" to "c1" with an always-throwing oracle
responds 200 with the fallback reply. -/
theorem c7_model_throw_still_persists_and_succeeds_spot :
    (postChatMessage st10 (.vstr "hi") (.vstr "c1") "f1" apiThrows).1
      = ChatResult.ok fallbackOnError "c1" := by
  have h := (c7_model_throw_still_persists_and_succeeds st10 "f1" apiThrows "hi" "c1"
    (by decide) (by decide) (by decide) (by decide) (fun _ => rfl)).1
  rw [h]

/-- C8: the prompt submitted by `generateSupportReply` decomposes as
the fixed instruction preamble, the full FAQ text verbatim (occurring
as a contiguous segment of the prompt), the Conversation header, and
the history rendered in list order (oldest first) one entry per line
labelled Customer or Support by sender role; and the request carries
the fixed model identifier. -/
theorem c8_prompt_contains_faq_then_history (history : List Message) :
    promptOf history
      = promptPreamble ++ faq ++ conversationHeader ++
          String.intercalate "\n" (history.map renderEntry) ++ "\n" ∧
    (∃ pre post, (promptOf history).data = pre ++ (faq.data ++ post) ∧
      pre = promptPreamble.data ∧
      post = (conversationHeader ++ conversationTextOf history ++ "\n").data) ∧
    (∀ m, renderEntry m
      = (if m.sender == "user" then "Customer" else "Support") ++ ": " ++ m.text) ∧
    (supportRequestOf history).model = "gemini-2.5-flash" ∧
    (supportRequestOf history).promptText = promptOf history := by
  refine ⟨rfl, ⟨promptPreamble.data,
      (conversationHeader ++ conversationTextOf history ++ "\n").data, ?_, rfl, rfl⟩,
    fun m => rfl, rfl, rfl⟩
  simp [promptOf, conversationTextOf]

/-- C9: a falsy sessionId value — the empty string, null, 0, false —
is treated exactly as an absent one: the handler behaves identically to
the sessionId-less request, creates a fresh Conversation and answers
200 with the fresh identifier rather than looking the value up. -/
theorem c9_falsy_session_treated_as_absent (st : Store) (freshId : String)
    (api : GenRequest → ApiOutcome) (msg : String) (v : JSValue)
    (hmsg : isBlank msg = false) (hlen : msg.length ≤ 1000)
    (hfalsy : truthy v = false) :
    postChatMessage st (.vstr msg) v freshId api
      = postChatMessage st (.vstr msg) JSValue.vundefined freshId api ∧
    (∃ r, (postChatMessage st (.vstr msg) v freshId api).1
      = ChatResult.ok r freshId) ∧
    (postChatMessage st (.vstr msg) v freshId api).2.conversations
      = st.conversations ++ [freshId] := by
  rw [postChatMessage_fresh_run st freshId api msg v hmsg hlen hfalsy,
    postChatMessage_fresh_run st freshId api msg JSValue.vundefined hmsg hlen rfl]
  exact ⟨rfl, ⟨_, rfl⟩, rfl⟩

/-- C9 witness: the empty-string sessionId creates the fresh
conversation "f1" on the empty store. -/
theorem c9_falsy_session_treated_as_absent_spot :
    (postChatMessage emptyStore (.vstr "hi") (.vstr "") "f1" apiThrows).2.conversations
      = emptyStore.conversations ++ ["f1"] :=
  (c9_falsy_session_treated_as_absent emptyStore "f1" apiThrows "hi" (.vstr "")
    (by decide) (by decide) (by decide)).2.2

/-- C10: a message field that is present but not a string — number,
boolean, null, array or object — is rejected with 400 and the message
"Message cannot be empty.", and the store is returned untouched, so a
non-string value never reaches conversation resolution or message
persistence. -/
theorem c10_nonstring_message_rejected (st : Store) (sid : JSValue) (freshId : String)
    (api : GenRequest → ApiOutcome) (v : JSValue) (hv : isStr v = false) :
    postChatMessage st v sid freshId api
      = (ChatResult.badRequest "Message cannot be empty.", st) := by
  cases v
  case vstr s => simp [isStr] at hv
  all_goals rfl

/-- C10 witness: the numeric message 5 on the fixture store. -/
theorem c10_nonstring_message_rejected_spot :
    postChatMessage st10 (.vnum 5) (.vstr "c1") "f1" apiThrows
      = (ChatResult.badRequest "Message cannot be empty.", st10) :=
  c10_nonstring_message_rejected st10 (.vstr "c1") "f1" apiThrows (.vnum 5) (by decide)

end Chatbot
